import Mathlib

/-!
Verification of the OpenAI SDK streaming Cloudflare worker
(`src/index.ts`, `config/constants.ts`).

The worker exposes a single relay route `POST /api/turn_response`: it parses
the JSON body, issues one upstream streaming call via the OpenAI SDK, and
reframes every upstream event as one server-sent-event frame
`data: <json>\n\n` whose payload is `{ event: event.type, data: event }`.

The development below is a shallow embedding: JSON values are an inductive
type, `JSON.stringify` is modelled by an executable serializer, the
`ReadableStream.start` loop is `runStart`, and the `fetch` handler is
`workerFetch`, parametrised by the upstream collaborator
(`openai.responses.create`), which is external to the repository.
-/

namespace Relay

/-- Model of a JSON value (the values `request.json()` and `JSON.stringify`
operate on). Numbers are modelled as integers; the claims under
verification never inspect numeric payloads. -/
inductive JsValue where
  | jsNull
  | jsBool (flag : Bool)
  | jsNum (value : Int)
  | jsStr (text : String)
  | jsArr (items : List JsValue)
  | jsObj (props : List (String × JsValue))

/-- First binding of a key in a JS object literal, innermost model of
property access on a plain object. -/
def lookupField : List (String × JsValue) → String → Option JsValue
  | [], _ => none
  | (k, v) :: rest, key => if k = key then some v else lookupField rest key

/-- JS property access `o[key]` as used by the destructuring
`const { messages, tools } = requestData`: `none` models `undefined`
(missing property, or access on a non-object primitive). -/
def jsGetField : JsValue → String → Option JsValue
  | .jsObj fields, key => lookupField fields key
  | _, _ => none

/-- Escape of one character inside a JSON string literal, as performed by
`JSON.stringify`. -/
def escapeChar (c : Char) : List Char :=
  if c = '\"' then ['\\', '\"']
  else if c = '\\' then ['\\', '\\']
  else if c = '\n' then ['\\', 'n']
  else if c = '\r' then ['\\', 'r']
  else if c = '\t' then ['\\', 't']
  else [c]

/-- Escape of a whole JSON string body. -/
def escapeList : List Char → List Char
  | [] => []
  | c :: cs => escapeChar c ++ escapeList cs

/-- Decimal digit character. -/
def digitChar : Nat → Char
  | 0 => '0'
  | 1 => '1'
  | 2 => '2'
  | 3 => '3'
  | 4 => '4'
  | 5 => '5'
  | 6 => '6'
  | 7 => '7'
  | 8 => '8'
  | _ => '9'

/-- Decimal representation of a natural number, most significant digit
first. -/
def natChars (n : Nat) : List Char :=
  if n < 10 then [digitChar n]
  else natChars (n / 10) ++ [digitChar (n % 10)]
  termination_by n
  decreasing_by
    exact Nat.div_lt_self (by omega) (by omega)

/-- Decimal representation of an integer. -/
def intChars (n : Int) : List Char :=
  if n < 0 then '-' :: natChars n.natAbs else natChars n.natAbs

mutual

/-- Character stream produced by `JSON.stringify` on a JSON value. -/
def JsValue.stringifyChars : JsValue → List Char
  | .jsNull => ['n', 'u', 'l', 'l']
  | .jsBool true => ['t', 'r', 'u', 'e']
  | .jsBool false => ['f', 'a', 'l', 's', 'e']
  | .jsNum n => intChars n
  | .jsStr s => '\"' :: escapeList s.data ++ ['\"']
  | .jsArr elems => '[' :: arrChars elems ++ [']']
  | .jsObj fields => '{' :: objChars fields ++ ['}']

/-- Serialized elements of a JSON array, comma separated. -/
def arrChars : List JsValue → List Char
  | [] => []
  | [j] => JsValue.stringifyChars j
  | j :: rest => JsValue.stringifyChars j ++ ',' :: arrChars rest

/-- Serialized members of a JSON object, comma separated. -/
def objChars : List (String × JsValue) → List Char
  | [] => []
  | [(k, v)] => fieldChars k v
  | (k, v) :: rest => fieldChars k v ++ ',' :: objChars rest

/-- One serialized `"key":value` member. -/
def fieldChars (k : String) (v : JsValue) : List Char :=
  '\"' :: escapeList k.data ++ '\"' :: ':' :: JsValue.stringifyChars v

end

/-- `JSON.stringify` as a function into strings. -/
def JsValue.stringify (j : JsValue) : String := ⟨j.stringifyChars⟩

/-- An upstream event yielded by the OpenAI SDK stream: the worker reads
its `type` discriminator (`event.type`); the remaining payload fields are
carried opaquely. -/
structure UpstreamEvent where
  type : String
  fields : List (String × JsValue)

/-- The event as the JSON object the runtime serializes: its `type`
discriminator together with its payload fields. -/
def UpstreamEvent.toJson (ev : UpstreamEvent) : JsValue :=
  .jsObj (("type", .jsStr ev.type) :: ev.fields)

/-- Consumer-side reading of an event back out of its JSON form (the
deserialization a downstream client performs on the envelope payload). -/
def UpstreamEvent.ofJson : JsValue → Option UpstreamEvent
  | .jsObj (("type", .jsStr t) :: rest) => some ⟨t, rest⟩
  | _ => none

/-- The outward envelope built for one event:
`{ event: event.type, data: event }`. -/
def envelopeJson (ev : UpstreamEvent) : JsValue :=
  .jsObj [("event", .jsStr ev.type), ("data", ev.toJson)]

/-- The SSE frame enqueued for one event:
the serialized envelope between a literal `data: ` head and a blank-line
terminator. -/
def eventFrame (ev : UpstreamEvent) : String :=
  "data: " ++ (envelopeJson ev).stringify ++ "\n\n"

/-- How the outward transport ends: `controller.close()` on normal
exhaustion, or `controller.error(e)` when iterating the upstream stream
throws. -/
inductive StreamTerminal where
  | closed
  | errored (msg : String)

/-- Everything observable on the outward transport: the frames enqueued, in
order, and the terminal state. -/
structure StreamResult where
  frames : List String
  terminal : StreamTerminal

/-- The `start(controller)` loop of the `ReadableStream`: the upstream
iteration is the list of events it yields followed by an optional thrown
error. Each event is reframed and enqueued before the next is pulled;
exhaustion closes the controller and a thrown error moves it to the error
state. -/
def runStart : List UpstreamEvent → Option String → StreamResult
  | [], none => ⟨[], .closed⟩
  | [], some e => ⟨[], .errored e⟩
  | ev :: rest, outcome =>
    let r := runStart rest outcome
    ⟨eventFrame ev :: r.frames, r.terminal⟩

/-- The argument object of `openai.responses.create`. -/
structure CreateParams where
  model : String
  input : Option JsValue
  tools : Option JsValue
  stream : Bool
  parallel_tool_calls : Bool

/-- The upstream collaborator (`openai.responses.create` with
`stream: true`): external to the repository. A call either throws
(`Except.error`) or yields a lazy event sequence, modelled as the events
produced together with an optional error thrown during iteration. -/
abbrev Upstream : Type :=
  CreateParams → Except String (List UpstreamEvent × Option String)

/-- `MODEL` from `config/constants.ts`. -/
def MODEL : String := "gpt-4.1-nano-2025-04-14"

/-- The argument object the handler passes to `openai.responses.create`,
built from the parsed request body by the destructuring
`const { messages, tools } = requestData`. -/
def buildCreateParams (requestData : JsValue) : CreateParams :=
  { model := MODEL
    input := jsGetField requestData "messages"
    tools := jsGetField requestData "tools"
    stream := true
    parallel_tool_calls := false }

/-- An inbound HTTP request as the handler observes it: method, URL path,
and the outcome of `await request.json()` (`Except.error` models a body
that fails JSON parsing, carrying the runtime parse-error message). -/
structure HttpRequest where
  method : String
  pathname : String
  body : Except String JsValue

/-- A response body: plain text, an empty body (`null`), or the SSE
`ReadableStream` with its observable result. -/
inductive ResponseBody where
  | text (s : String)
  | empty
  | stream (result : StreamResult)

/-- An HTTP response: status, headers in insertion order, body. -/
structure HttpResponse where
  status : Nat
  headers : List (String × String)
  body : ResponseBody

/-- The `corsHeaders` literal from the handler. -/
def corsHeaders : List (String × String) :=
  [("Access-Control-Allow-Origin", "*"),
   ("Access-Control-Allow-Methods", "GET, POST, OPTIONS"),
   ("Access-Control-Allow-Headers", "Content-Type")]

/-- The 500 error response of the catch block:
`{ error: <message> }` serialized, with `application/json` and the CORS
headers. -/
def errorResponse (msg : String) : HttpResponse :=
  { status := 500
    headers := ("Content-Type", "application/json") :: corsHeaders
    body := .text (JsValue.stringify (.jsObj [("error", .jsStr msg)])) }

/-- Message of the `TypeError` the runtime throws when
`const { messages, tools } = requestData` destructures a `null` request
body; the message text is runtime-specific. -/
def destructureNullMsg : String :=
  "Cannot destructure property of null"

/-- The streamed SSE response built from the upstream call outcome: a
thrown `create` call lands in the catch block, a yielded stream is wrapped
in the 200 `text/event-stream` response whose body runs the `start` loop. -/
def relayRespond : Except String (List UpstreamEvent × Option String) → HttpResponse
  | .error e => errorResponse e
  | .ok (events, outcome) =>
    { status := 200
      headers := ("Content-Type", "text/event-stream")
        :: ("Cache-Control", "no-cache")
        :: ("Connection", "keep-alive")
        :: corsHeaders
      body := .stream (runStart events outcome) }

/-- The static documentation page returned on GET. Its markup is
abbreviated here: no verified property reads the page content. -/
def docHtml : String :=
  "<!DOCTYPE html><html><head><title>OpenAI SDK Streaming API</title>" ++
  "</head><body><h1>OpenAI SDK Streaming API</h1>" ++
  "<p>This is a Cloudflare Worker that provides streaming access to " ++
  "the OpenAI API.</p></body></html>"

/-- The worker `fetch` handler, parametrised by the upstream collaborator
`create`. Branches in source order: OPTIONS preflight, GET documentation
page, POST to the relay route (404 off-route, then the try/catch around
parsing, the upstream call and the stream response), and the trailing 405
for everything else. -/
def workerFetch (create : Upstream) (req : HttpRequest) : HttpResponse :=
  if req.method = "OPTIONS" then
    { status := 200, headers := corsHeaders, body := .empty }
  else if req.method = "GET" then
    { status := 200
      headers := ("Content-Type", "text/html") :: corsHeaders
      body := .text docHtml }
  else if req.method = "POST" then
    if req.pathname ≠ "/api/turn_response" then
      { status := 404, headers := [], body := .text "Not found" }
    else
      match req.body with
      | .error e => errorResponse e
      | .ok .jsNull => errorResponse destructureNullMsg
      | .ok requestData => relayRespond (create (buildCreateParams requestData))
  else
    { status := 405, headers := corsHeaders, body := .text "Method not allowed" }

/-! ### Serializer lemmas: `JSON.stringify` output never contains a raw
newline, because string bodies are escaped.  This is what makes the
`\n\n` frame terminator unambiguous on the wire. -/

theorem escapeChar_no_newline (c : Char) : '\n' ∉ escapeChar c := by
  unfold escapeChar
  split
  · decide
  split
  · decide
  split
  · decide
  split
  · decide
  split
  · decide
  rename_i h1 h2 h3 h4 h5
  simp only [List.mem_singleton]
  intro hmem
  exact h3 hmem.symm

theorem escapeList_no_newline (cs : List Char) : '\n' ∉ escapeList cs := by
  induction cs with
  | nil => simp [escapeList]
  | cons c rest ih =>
    simp only [escapeList, List.mem_append]
    intro h
    rcases h with h | h
    · exact escapeChar_no_newline c h
    · exact ih h

theorem digitChar_ne_newline (d : Nat) : digitChar d ≠ '\n' := by
  unfold digitChar
  split <;> decide

theorem natChars_no_newline (n : Nat) : '\n' ∉ natChars n := by
  induction n using Nat.strong_induction_on with
  | _ n ih =>
    unfold natChars
    split
    · simp only [List.mem_singleton]
      intro h
      exact digitChar_ne_newline n h.symm
    · rename_i hn
      simp only [List.mem_append, List.mem_singleton]
      intro h
      rcases h with h | h
      · exact ih (n / 10) (Nat.div_lt_self (by omega) (by omega)) h
      · exact digitChar_ne_newline (n % 10) h.symm

theorem intChars_no_newline (n : Int) : '\n' ∉ intChars n := by
  unfold intChars
  split
  · simp only [List.mem_cons]
    intro h
    rcases h with h | h
    · exact absurd h (by decide)
    · exact natChars_no_newline n.natAbs h
  · exact natChars_no_newline n.natAbs

mutual

theorem stringifyChars_no_newline (j : JsValue) : '\n' ∉ j.stringifyChars := by
  match j with
  | .jsNull =>
    unfold JsValue.stringifyChars
    decide
  | .jsBool true =>
    unfold JsValue.stringifyChars
    decide
  | .jsBool false =>
    unfold JsValue.stringifyChars
    decide
  | .jsNum n =>
    unfold JsValue.stringifyChars
    exact intChars_no_newline n
  | .jsStr s =>
    unfold JsValue.stringifyChars
    intro h
    simp only [List.mem_cons, List.mem_append, List.mem_singleton] at h
    repeat' rcases h with h | h
    all_goals first
      | exact absurd h (by decide)
      | exact escapeList_no_newline s.data h
  | .jsArr elems =>
    unfold JsValue.stringifyChars
    intro h
    simp only [List.mem_cons, List.mem_append, List.mem_singleton] at h
    repeat' rcases h with h | h
    all_goals first
      | exact absurd h (by decide)
      | exact arrChars_no_newline elems h
  | .jsObj fields =>
    unfold JsValue.stringifyChars
    intro h
    simp only [List.mem_cons, List.mem_append, List.mem_singleton] at h
    repeat' rcases h with h | h
    all_goals first
      | exact absurd h (by decide)
      | exact objChars_no_newline fields h

theorem arrChars_no_newline (elems : List JsValue) : '\n' ∉ arrChars elems := by
  match elems with
  | [] =>
    unfold arrChars
    simp
  | [j] =>
    unfold arrChars
    exact stringifyChars_no_newline j
  | j :: k :: rest =>
    unfold arrChars
    intro h
    simp only [List.mem_cons, List.mem_append, List.mem_singleton] at h
    repeat' rcases h with h | h
    all_goals first
      | exact absurd h (by decide)
      | exact stringifyChars_no_newline j h
      | exact arrChars_no_newline (k :: rest) h

theorem objChars_no_newline (fields : List (String × JsValue)) :
    '\n' ∉ objChars fields := by
  match fields with
  | [] =>
    unfold objChars
    simp
  | [(k, v)] =>
    unfold objChars
    exact fieldChars_no_newline k v
  | (k, v) :: p :: rest =>
    unfold objChars
    intro h
    simp only [List.mem_cons, List.mem_append, List.mem_singleton] at h
    repeat' rcases h with h | h
    all_goals first
      | exact absurd h (by decide)
      | exact fieldChars_no_newline k v h
      | exact objChars_no_newline (p :: rest) h

theorem fieldChars_no_newline (k : String) (v : JsValue) :
    '\n' ∉ fieldChars k v := by
  unfold fieldChars
  intro h
  simp only [List.mem_cons, List.mem_append, List.mem_singleton] at h
  repeat' rcases h with h | h
  all_goals first
    | exact absurd h (by decide)
    | exact escapeList_no_newline k.data h
    | exact stringifyChars_no_newline v h

end

/-- No raw newline occurs in the serialized form of any JSON value. -/
theorem stringify_no_newline (j : JsValue) : '\n' ∉ j.stringify.data :=
  stringifyChars_no_newline j

/-! ### Concrete collaborators and helper lemmas -/

/-- A trivially succeeding upstream collaborator (yields an empty event
stream), used to evaluate the handler on concrete requests. -/
def dummyCreate : Upstream := fun _ => .ok ([], none)

/-- Modelled from the spec: the upstream contract requires `input`
(`{ model, input: Message[], ... }`), so a call whose `input` is missing
throws; calls with an `input` succeed with an empty event stream.  The
collaborator itself (the OpenAI SDK) is external to the repository. -/
def strictCreate : Upstream
  | ⟨_, none, _, _, _⟩ => .error "Missing required parameter: input"
  | ⟨_, some _, _, _, _⟩ => .ok ([], none)

/-- An upstream collaborator yielding exactly one event then closing. -/
def oneEventCreate : Upstream :=
  fun _ => .ok ([⟨"response.created", []⟩], none)

/-- Both outcomes of the upstream call produce a response whose headers
extend the CORS set. -/
theorem relayRespond_headers_cors
    (x : Except String (List UpstreamEvent × Option String))
    (p : String × String) (hp : p ∈ corsHeaders) :
    p ∈ (relayRespond x).headers := by
  cases x with
  | error e => exact List.mem_cons_of_mem _ hp
  | ok pr =>
    obtain ⟨events, outcome⟩ := pr
    exact List.mem_cons_of_mem _
      (List.mem_cons_of_mem _ (List.mem_cons_of_mem _ hp))

/-- A valid POST with a non-null parsed body reaches the upstream call and
returns its relayed response. -/
theorem workerFetch_valid_post
    (create : Upstream) (requestData : JsValue) (hnn : requestData ≠ .jsNull) :
    workerFetch create ⟨"POST", "/api/turn_response", .ok requestData⟩ =
      relayRespond (create (buildCreateParams requestData)) := by
  cases requestData with
  | jsNull => exact absurd rfl hnn
  | jsBool b => rfl
  | jsNum n => rfl
  | jsStr s => rfl
  | jsArr elems => rfl
  | jsObj fields => rfl

/-! ### The claims -/

/-- Claim C1: for every upstream event sequence and terminal outcome, the
relay enqueues exactly one outward frame per upstream event, in exactly
the upstream order, with no event kind filtered or dropped: the frame list
of the stream loop is the map of the reframing over the events. -/
theorem one_frame_per_event_in_order
    (events : List UpstreamEvent) (outcome : Option String) :
    (runStart events outcome).frames = events.map eventFrame := by
  induction events with
  | nil => cases outcome <;> rfl
  | cons ev rest ih => simp [runStart, ih]

/-- Claim C2: the outward envelope for an event is
`{ event: event.type, data: event }`, and reading the `data` payload back
(the consumer-side deserialization) recovers the original event exactly,
for every event. -/
theorem envelope_roundtrip (ev : UpstreamEvent) :
    jsGetField (envelopeJson ev) "event" = some (.jsStr ev.type) ∧
    (jsGetField (envelopeJson ev) "data").bind UpstreamEvent.ofJson
      = some ev := by
  exact ⟨rfl, rfl⟩

/-- Claim C3: when the upstream iteration throws after yielding some
events, the frames on the outward transport are exactly the reframed
events already produced — no further frame and no graceful error envelope
— and the transport terminates in the error state. (Totality of `runStart`
models that the loop's catch block prevents a crash.) -/
theorem midstream_fault_stops_and_errors
    (events : List UpstreamEvent) (e : String) :
    (runStart events (some e)).frames = events.map eventFrame ∧
    (runStart events (some e)).terminal = .errored e := by
  induction events with
  | nil => exact ⟨rfl, rfl⟩
  | cons ev rest ih => simp [runStart, ih.1, ih.2]

/-- Claim C4: a POST to the relay route whose body is malformed JSON, or
parses to an object with no `messages` property, is answered with the 500
`application/json` response `{ error: <message> }` and no stream body —
under the spec's upstream contract that a call with its required `input`
missing throws. -/
theorem invalid_request_yields_500
    (create : Upstream) (req : HttpRequest)
    (msg : String) (fields : List (String × JsValue))
    (hm : req.method = "POST") (hp : req.pathname = "/api/turn_response")
    (hcreate : ∀ p : CreateParams, p.input = none → ∃ e, create p = .error e)
    (hbad : req.body = .error msg ∨
      (req.body = .ok (.jsObj fields) ∧ lookupField fields "messages" = none)) :
    ∃ m, workerFetch create req = errorResponse m ∧
      (workerFetch create req).status = 500 ∧
      (workerFetch create req).headers =
        ("Content-Type", "application/json") :: corsHeaders ∧
      (workerFetch create req).body =
        .text (JsValue.stringify (.jsObj [("error", .jsStr m)])) := by
  obtain ⟨mth, pth, bdy⟩ := req
  simp only at hm hp
  subst hm
  subst hp
  rcases hbad with hb | ⟨hb, hnone⟩
  · simp only at hb
    subst hb
    exact ⟨msg, rfl, rfl, rfl, rfl⟩
  · simp only at hb
    subst hb
    obtain ⟨e, hce⟩ := hcreate (buildCreateParams (.jsObj fields)) hnone
    have hW : workerFetch create ⟨"POST", "/api/turn_response", .ok (.jsObj fields)⟩
        = errorResponse e := by
      rw [workerFetch_valid_post create (.jsObj fields) (fun hx => JsValue.noConfusion hx),
        hce]
      rfl
    exact ⟨e, hW, by rw [hW]; rfl, by rw [hW]; rfl, by rw [hW]; rfl⟩

/-- Claim C4, witness: the concrete POST whose body parses to `{}` (an
object with no `messages` property), sent through an upstream obeying the
required-`input` contract, is answered with the 500 error response. -/
theorem invalid_request_yields_500_witness :
    ∃ m, workerFetch strictCreate ⟨"POST", "/api/turn_response", .ok (.jsObj [])⟩
        = errorResponse m ∧
      (workerFetch strictCreate
        ⟨"POST", "/api/turn_response", .ok (.jsObj [])⟩).status = 500 ∧
      (workerFetch strictCreate
        ⟨"POST", "/api/turn_response", .ok (.jsObj [])⟩).headers =
        ("Content-Type", "application/json") :: corsHeaders ∧
      (workerFetch strictCreate
        ⟨"POST", "/api/turn_response", .ok (.jsObj [])⟩).body =
        .text (JsValue.stringify (.jsObj [("error", .jsStr m)])) :=
  invalid_request_yields_500 strictCreate
    ⟨"POST", "/api/turn_response", .ok (.jsObj [])⟩ "" [] rfl rfl
    (fun p hp => by
      obtain ⟨mo, inp, tl, st, pa⟩ := p
      simp only at hp
      subst hp
      exact ⟨"Missing required parameter: input", rfl⟩)
    (Or.inr ⟨rfl, rfl⟩)

/-- Claim C5, counterexample: a POST to the non-relay path `/api/unknown`
is answered 404 by `new Response('Not found', { status: 404 })`, which
sets no headers at all — in particular no CORS headers. -/
theorem post_unknown_404_lacks_cors :
    (workerFetch dummyCreate ⟨"POST", "/api/unknown", .ok (.jsObj [])⟩).status
        = 404 ∧
    (workerFetch dummyCreate ⟨"POST", "/api/unknown", .ok (.jsObj [])⟩).headers
        = [] ∧
    ("Access-Control-Allow-Origin", "*") ∉
      (workerFetch dummyCreate ⟨"POST", "/api/unknown", .ok (.jsObj [])⟩).headers := by
  refine ⟨rfl, rfl, ?_⟩
  intro h
  rw [show (workerFetch dummyCreate
    ⟨"POST", "/api/unknown", .ok (.jsObj [])⟩).headers = [] from rfl] at h
  cases h

/-- Claim C5 amended: every response except the 404 for a POST off the
relay route carries the full CORS header set; that 404 alone is built with
no headers. -/
theorem cors_on_every_response_except_post_404
    (create : Upstream) (req : HttpRequest)
    (h : ¬ (req.method = "POST" ∧ req.pathname ≠ "/api/turn_response")) :
    ∀ p ∈ corsHeaders, p ∈ (workerFetch create req).headers := by
  intro p hp
  unfold workerFetch
  split
  · exact hp
  split
  · exact List.mem_cons_of_mem _ hp
  split
  · split
    · exact absurd
        ⟨‹req.method = "POST"›, ‹req.pathname ≠ "/api/turn_response"›⟩ h
    · split
      · exact List.mem_cons_of_mem _ hp
      · exact List.mem_cons_of_mem _ hp
      · exact relayRespond_headers_cors _ p hp
  · exact hp

/-- Claim C5 amended, witness: the OPTIONS preflight response carries
each of the three CORS headers. -/
theorem cors_on_every_response_except_post_404_witness :
    ("Access-Control-Allow-Origin", "*")
      ∈ (workerFetch dummyCreate ⟨"OPTIONS", "/", .ok .jsNull⟩).headers ∧
    ("Access-Control-Allow-Methods", "GET, POST, OPTIONS")
      ∈ (workerFetch dummyCreate ⟨"OPTIONS", "/", .ok .jsNull⟩).headers ∧
    ("Access-Control-Allow-Headers", "Content-Type")
      ∈ (workerFetch dummyCreate ⟨"OPTIONS", "/", .ok .jsNull⟩).headers :=
  ⟨cors_on_every_response_except_post_404 dummyCreate
      ⟨"OPTIONS", "/", .ok .jsNull⟩ (by simp) _ (by decide),
    cors_on_every_response_except_post_404 dummyCreate
      ⟨"OPTIONS", "/", .ok .jsNull⟩ (by simp) _ (by decide),
    cors_on_every_response_except_post_404 dummyCreate
      ⟨"OPTIONS", "/", .ok .jsNull⟩ (by simp) _ (by decide)⟩

/-- Claim C6, counterexample: the preflight response is built by
`new Response(null, { headers: corsHeaders })` with no explicit status, so
its status is the `Response` default 200, not the claimed 204. -/
theorem options_status_is_200_not_204 :
    (workerFetch dummyCreate ⟨"OPTIONS", "/api/turn_response", .ok .jsNull⟩).status
        = 200 ∧
    (workerFetch dummyCreate ⟨"OPTIONS", "/api/turn_response", .ok .jsNull⟩).status
        ≠ 204 := by
  refine ⟨rfl, ?_⟩
  rw [show (workerFetch dummyCreate
    ⟨"OPTIONS", "/api/turn_response", .ok .jsNull⟩).status = 200 from rfl]
  decide

/-- Claim C6 amended: an OPTIONS request to any path is answered with the
CORS headers and an empty body, at the `Response` default status 200
(rather than 204). -/
theorem options_preflight (create : Upstream) (req : HttpRequest)
    (h : req.method = "OPTIONS") :
    workerFetch create req = ⟨200, corsHeaders, .empty⟩ := by
  obtain ⟨mth, pth, bdy⟩ := req
  simp only at h
  subst h
  rfl

/-- Claim C6 amended, witness: a concrete OPTIONS request. -/
theorem options_preflight_witness :
    workerFetch dummyCreate ⟨"OPTIONS", "/", .ok .jsNull⟩
      = ⟨200, corsHeaders, .empty⟩ :=
  options_preflight dummyCreate ⟨"OPTIONS", "/", .ok .jsNull⟩ rfl

/-- Claim C7: on a valid POST whose upstream call yields a stream, the
response has status 200 with the `text/event-stream`, `no-cache` and
`keep-alive` headers (plus CORS), its body is the relayed stream, and each
frame is the serialized envelope between a literal `data: ` head and one
final `\n\n`; the serialized envelope contains no raw newline, so the
double newline occurs exactly once, terminating the frame. -/
theorem sse_frame_format
    (create : Upstream) (req : HttpRequest) (requestData : JsValue)
    (events : List UpstreamEvent) (outcome : Option String)
    (hm : req.method = "POST") (hp : req.pathname = "/api/turn_response")
    (hb : req.body = .ok requestData) (hnn : requestData ≠ .jsNull)
    (hc : create (buildCreateParams requestData) = .ok (events, outcome)) :
    (workerFetch create req).status = 200 ∧
    (workerFetch create req).headers =
      ("Content-Type", "text/event-stream") :: ("Cache-Control", "no-cache")
        :: ("Connection", "keep-alive") :: corsHeaders ∧
    (workerFetch create req).body = .stream (runStart events outcome) ∧
    ∀ ev : UpstreamEvent,
      eventFrame ev = "data: " ++ (envelopeJson ev).stringify ++ "\n\n" ∧
      '\n' ∉ (envelopeJson ev).stringify.data := by
  obtain ⟨mth, pth, bdy⟩ := req
  simp only at hm hp hb
  subst hm
  subst hp
  subst hb
  have hW : workerFetch create ⟨"POST", "/api/turn_response", .ok requestData⟩
      = relayRespond (create (buildCreateParams requestData)) :=
    workerFetch_valid_post create requestData hnn
  rw [hW, hc]
  exact ⟨rfl, rfl, rfl, fun ev => ⟨rfl, stringify_no_newline _⟩⟩

/-- Claim C7, witness: a concrete valid POST against an upstream yielding
one `response.created` event. -/
theorem sse_frame_format_witness :
    (workerFetch oneEventCreate
      ⟨"POST", "/api/turn_response", .ok (.jsObj [("messages", .jsArr [])])⟩).status
        = 200 ∧
    (workerFetch oneEventCreate
      ⟨"POST", "/api/turn_response", .ok (.jsObj [("messages", .jsArr [])])⟩).headers =
      ("Content-Type", "text/event-stream") :: ("Cache-Control", "no-cache")
        :: ("Connection", "keep-alive") :: corsHeaders ∧
    (workerFetch oneEventCreate
      ⟨"POST", "/api/turn_response", .ok (.jsObj [("messages", .jsArr [])])⟩).body
        = .stream (runStart [⟨"response.created", []⟩] none) ∧
    ∀ ev : UpstreamEvent,
      eventFrame ev = "data: " ++ (envelopeJson ev).stringify ++ "\n\n" ∧
      '\n' ∉ (envelopeJson ev).stringify.data :=
  sse_frame_format oneEventCreate
    ⟨"POST", "/api/turn_response", .ok (.jsObj [("messages", .jsArr [])])⟩
    (.jsObj [("messages", .jsArr [])]) [⟨"response.created", []⟩] none
    rfl rfl rfl (fun hx => JsValue.noConfusion hx) rfl

/-- Claim C8: when the upstream sequence is exhausted normally, the
transport closes cleanly and the frames are exactly the reframed events —
nothing is written after the final event's frame, no trailing sentinel. -/
theorem clean_close_on_exhaustion (events : List UpstreamEvent) :
    (runStart events none).frames = events.map eventFrame ∧
    (runStart events none).terminal = .closed := by
  induction events with
  | nil => exact ⟨rfl, rfl⟩
  | cons ev rest ih => simp [runStart, ih.1, ih.2]

/-- Claim C9: a valid POST issues the upstream call with exactly the
body's `messages` as `input` and its `tools` attached verbatim,
`stream: true` and `parallel_tool_calls: false`; the whole response is the
relay of that one call, so an empty `messages` array is forwarded
unchanged rather than rejected. -/
theorem upstream_call_params
    (create : Upstream) (req : HttpRequest) (requestData : JsValue)
    (hm : req.method = "POST") (hp : req.pathname = "/api/turn_response")
    (hb : req.body = .ok requestData) (hnn : requestData ≠ .jsNull) :
    workerFetch create req
        = relayRespond (create (buildCreateParams requestData)) ∧
    (buildCreateParams requestData).input = jsGetField requestData "messages" ∧
    (buildCreateParams requestData).tools = jsGetField requestData "tools" ∧
    (buildCreateParams requestData).stream = true ∧
    (buildCreateParams requestData).parallel_tool_calls = false := by
  obtain ⟨mth, pth, bdy⟩ := req
  simp only at hm hp hb
  subst hm
  subst hp
  subst hb
  exact ⟨workerFetch_valid_post create requestData hnn, rfl, rfl, rfl, rfl⟩

/-- Claim C9, witness: the concrete POST whose body is
`{"messages": []}`: the empty `messages` array is forwarded as `input`
unchanged and the response is the relayed upstream outcome. -/
theorem upstream_call_params_witness :
    workerFetch dummyCreate
        ⟨"POST", "/api/turn_response", .ok (.jsObj [("messages", .jsArr [])])⟩
      = relayRespond
          (dummyCreate (buildCreateParams (.jsObj [("messages", .jsArr [])]))) ∧
    (buildCreateParams (.jsObj [("messages", .jsArr [])])).input
      = jsGetField (.jsObj [("messages", .jsArr [])]) "messages" ∧
    (buildCreateParams (.jsObj [("messages", .jsArr [])])).tools
      = jsGetField (.jsObj [("messages", .jsArr [])]) "tools" ∧
    (buildCreateParams (.jsObj [("messages", .jsArr [])])).stream = true ∧
    (buildCreateParams (.jsObj [("messages", .jsArr [])])).parallel_tool_calls
      = false :=
  upstream_call_params dummyCreate
    ⟨"POST", "/api/turn_response", .ok (.jsObj [("messages", .jsArr [])])⟩
    (.jsObj [("messages", .jsArr [])]) rfl rfl rfl (fun hx => JsValue.noConfusion hx)

/-- Claim C10: the model identifier handed to the upstream call is the
fixed constant `MODEL = "gpt-4.1-nano-2025-04-14"` whatever the request
body, so any two requests issue their upstream calls with the same model
argument. -/
theorem model_is_fixed_constant (requestData other : JsValue) :
    (buildCreateParams requestData).model = MODEL ∧
    (buildCreateParams requestData).model = "gpt-4.1-nano-2025-04-14" ∧
    (buildCreateParams requestData).model = (buildCreateParams other).model :=
  ⟨rfl, rfl, rfl⟩

end Relay
